import Mathlib

/-!
Verification of the TrafficGuru intersection scheduler.

This file is a shallow embedding of the C sources (`src/lane_process.c`,
`src/sjf_scheduler.c`, `src/main.c`, `src/visualization.c`) into Lean 4.
Machine integers are modelled as `ℤ`/`ℕ` (all values handled by the
program stay far below `INT_MAX`; where a bound matters it appears as an
explicit hypothesis), C `float` arithmetic is modelled exactly over `ℚ`,
and the pthread locks are erased: each locked critical section becomes one
atomic transition of an explicit event system.  Functions whose defining
translation unit is absent from the repository snapshot (queue.c,
performance_metrics.c, emergency_system.c, the deadlock resolver) are
modelled from the specification; each such definition carries a doc
comment starting with `Modelled from the spec:`.
-/

namespace Traffic

/-- Lane scheduling states, from `lane_process.h`. -/
inductive LaneState
  | WAITING
  | READY
  | RUNNING
  | BLOCKED
deriving DecidableEq, Repr

open LaneState

/-- Modelled from the spec: `queue.c` is not under `src/`.  The spec defines
the vehicle queue as a capacity-bounded FIFO of vehicle ids with
`size ≤ capacity` invariant. -/
structure Queue where
  items : List ℤ
  capacity : ℕ
deriving DecidableEq, Repr

/-- Modelled from the spec: enqueue appends at the tail and fails
(`QueueFull`, reported as `false`) when the queue is at capacity. -/
def enqueue (q : Queue) (v : ℤ) : Bool × Queue :=
  if q.items.length < q.capacity then
    (true, { q with items := q.items ++ [v] })
  else
    (false, q)

/-- Modelled from the spec: dequeue removes the head and fails
(`QueueEmpty`) on an empty queue; callers in `main.c` observe the failure
as the sentinel `-1` ("Assuming -1 means empty queue"). -/
def dequeue (q : Queue) : ℤ × Queue :=
  match q.items with
  | [] => (-1, q)
  | v :: rest => (v, { q with items := rest })

/-- Modelled from the spec: current number of queued vehicle ids. -/
def get_size (q : Queue) : ℕ := q.items.length

/-- Constants from `trafficguru.h`.  Note `trafficguru.h` redefines
`VEHICLE_CROSS_TIME` to 3 after `lane_process.h` defined it as 2; the
later definition is the one in effect in every translation unit, since
`trafficguru.h` is always included after (or includes) `lane_process.h`. -/
def NUM_LANES : ℕ := 4
def MAX_QUEUE_CAPACITY : ℕ := 20
def DEFAULT_TIME_QUANTUM : ℤ := 3
def CONTEXT_SWITCH_TIME : ℤ := 500
def VEHICLE_CROSS_TIME : ℤ := 3
def BATCH_EXIT_SIZE : ℕ := 3

/-- C `INT_MAX`, the initial minimum in the SJF scans. -/
def INT_MAX : ℤ := 2147483647

/-- C `FLT_MAX` (exactly `2^128 - 2^104`), the initial minimum in the
float-scored SJF variants. -/
def FLT_MAX : ℚ := 2 ^ 128 - 2 ^ 104

/-- The per-lane process state, from `lane_process.h`. -/
structure LaneProcess where
  lane_id : ℤ
  queue : Queue
  queue_length : ℕ
  max_queue_length : ℕ
  state : LaneState
  priority : ℤ
  waiting_time : ℕ
  last_arrival_time : ℤ
  last_service_time : ℤ
  total_vehicles_served : ℕ
  total_waiting_time : ℕ
  requested_quadrants : ℕ
  allocated_quadrants : ℕ
deriving DecidableEq, Repr

/-- `init_lane_process` from `lane_process.c` (thread/lock fields erased). -/
def init_lane_process (lane_id : ℤ) (max_capacity : ℕ) (now : ℤ) : LaneProcess :=
  { lane_id := lane_id
    queue := { items := [], capacity := max_capacity }
    queue_length := 0
    max_queue_length := max_capacity
    state := WAITING
    priority := 2
    waiting_time := 0
    last_arrival_time := now
    last_service_time := 0
    total_vehicles_served := 0
    total_waiting_time := 0
    requested_quadrants := 0
    allocated_quadrants := 0 }

/-- `add_vehicle_to_lane` from `lane_process.c`: on a successful enqueue it
refreshes the cached length from the queue and stamps `last_arrival_time`;
on failure it changes nothing.  It does not touch `state`. -/
def add_vehicle_to_lane (lane : LaneProcess) (vehicle_id : ℤ) (now : ℤ) : LaneProcess :=
  let r := enqueue lane.queue vehicle_id
  if r.1 then
    { lane with
        queue := r.2
        queue_length := get_size r.2
        last_arrival_time := now }
  else
    lane

/-- `remove_vehicle_from_lane_unlocked` from `lane_process.c`: dequeues
(yielding `-1` on empty) and refreshes the cached length. -/
def remove_vehicle_from_lane_unlocked (lane : LaneProcess) : ℤ × LaneProcess :=
  let r := dequeue lane.queue
  (r.1, { lane with queue := r.2, queue_length := get_size r.2 })

/-- `remove_vehicle_from_lane` from `lane_process.c`; with locks erased it
performs the same mutation as the unlocked variant. -/
def remove_vehicle_from_lane (lane : LaneProcess) : ℤ × LaneProcess :=
  remove_vehicle_from_lane_unlocked lane

/-- `get_lane_queue_length` from `lane_process.c`. -/
def get_lane_queue_length (lane : LaneProcess) : ℕ := lane.queue_length

/-- `update_lane_state` from `lane_process.c`. -/
def update_lane_state (lane : LaneProcess) (new_state : LaneState) : LaneProcess :=
  { lane with state := new_state }

/-- `get_lane_average_wait_time` from `lane_process.c`, float division
modelled over `ℚ`. -/
def get_lane_average_wait_time (lane : LaneProcess) : ℚ :=
  if lane.total_vehicles_served = 0 then 0
  else (lane.total_waiting_time : ℚ) / (lane.total_vehicles_served : ℚ)

/-- `get_lane_throughput` from `lane_process.c`. -/
def get_lane_throughput (lane : LaneProcess) : ℕ := lane.total_vehicles_served

/-- `request_intersection_quadrants` from `lane_process.c`. -/
def request_intersection_quadrants (lane : LaneProcess) (quadrants : ℕ) : LaneProcess :=
  { lane with requested_quadrants := quadrants }

/-- `release_intersection_quadrants` from `lane_process.c`: zeroes both the
allocation and the request, unconditionally. -/
def release_intersection_quadrants (lane : LaneProcess) : LaneProcess :=
  { lane with allocated_quadrants := 0, requested_quadrants := 0 }

/-- The batch-dequeue loop inside `lane_process_thread`: up to `n` dequeues,
counting and crediting only the non-empty ones. -/
def batch_remove (lane : LaneProcess) : ℕ → LaneProcess × ℕ
  | 0 => (lane, 0)
  | n + 1 =>
    let r := remove_vehicle_from_lane lane
    let lane1 :=
      if r.1 ≠ -1 then
        { r.2 with total_vehicles_served := r.2.total_vehicles_served + 1 }
      else r.2
    let rest := batch_remove lane1 n
    (rest.1, rest.2 + (if r.1 ≠ -1 then 1 else 0))

/-- The random-arrival section of `lane_process_thread` (the 10% roll is
modelled by the optional vehicle id). -/
def tick_arrival (lane : LaneProcess) (arrival : Option ℤ) (now : ℤ) : LaneProcess :=
  match arrival with
  | some v => add_vehicle_to_lane lane v now
  | none => lane

/-- The state-refresh section of `lane_process_thread`: `WAITING → READY`
on a non-empty queue, anything but `RUNNING` drops to `WAITING` on an
empty queue. -/
def tick_state_update (lane : LaneProcess) : LaneProcess :=
  if 0 < lane.queue_length ∧ lane.state = WAITING then { lane with state := READY }
  else if lane.queue_length = 0 ∧ lane.state ≠ RUNNING then { lane with state := WAITING }
  else lane

/-- The batch-processing section of `lane_process_thread`: while `RUNNING`,
dequeue up to `BATCH_EXIT_SIZE` vehicles and stamp `last_service_time` when
any crossed. -/
def tick_batch (lane : LaneProcess) (now : ℤ) : LaneProcess :=
  if lane.state = RUNNING then
    let r := batch_remove lane (min lane.queue_length BATCH_EXIT_SIZE)
    if 0 < r.2 then { r.1 with last_service_time := now } else r.1
  else lane

/-- The waiting-time bump at the end of `lane_process_thread`. -/
def tick_wait_bump (lane : LaneProcess) : LaneProcess :=
  if lane.state = READY ∨ lane.state = WAITING then
    { lane with
        waiting_time := lane.waiting_time + 1
        total_waiting_time := lane.total_waiting_time + 1 }
  else lane

/-- One iteration of `lane_process_thread` from `lane_process.c` (the lane's
own tick): an optional random arrival, the WAITING/READY state refresh, a
batch dequeue while RUNNING, and the waiting-time bump. -/
def lane_process_tick (lane : LaneProcess) (arrival : Option ℤ) (now : ℤ) : LaneProcess :=
  tick_wait_bump (tick_batch (tick_state_update (tick_arrival lane arrival now)) now)

/-! ## The scheduling-policy family (`sjf_scheduler.c`)

Each policy snapshots the four lanes' fields under their locks into local
arrays and then scans indices 0..3, considering only lanes whose
snapshotted state is `READY`.  The scans are embedded as structural
recursions over the index list `[0,1,2,3]` carrying the C loop's
accumulator (`best_lane`, running minimum, and for plain SJF the arrival
time of the current best). -/

/-- Index list scanned by every policy (`for i in 0..3`). -/
def laneIdx : List (Fin 4) := [0, 1, 2, 3]

/-- Accumulator of `schedule_next_lane_sjf`: `best_lane`,
`min_estimated_time`, `earliest_arrival`. -/
structure SJFAcc where
  best : ℤ
  minEst : ℤ
  earliest : ℤ
deriving DecidableEq, Repr

/-- The scan loop of `schedule_next_lane_sjf`: strict improvement on
`queue_length * VEHICLE_CROSS_TIME`, ties broken by strictly earlier
`last_arrival_time`. -/
def sjfGo (st : Fin 4 → LaneState) (ql : Fin 4 → ℕ) (arr : Fin 4 → ℤ) :
    List (Fin 4) → SJFAcc → SJFAcc
  | [], acc => acc
  | i :: rest, acc =>
    if st i = READY then
      if (ql i : ℤ) * VEHICLE_CROSS_TIME < acc.minEst then
        sjfGo st ql arr rest ⟨(i : ℤ), (ql i : ℤ) * VEHICLE_CROSS_TIME, arr i⟩
      else if (ql i : ℤ) * VEHICLE_CROSS_TIME = acc.minEst ∧ arr i < acc.earliest then
        sjfGo st ql arr rest ⟨(i : ℤ), acc.minEst, arr i⟩
      else
        sjfGo st ql arr rest acc
    else
      sjfGo st ql arr rest acc

/-- `schedule_next_lane_sjf` from `sjf_scheduler.c`: `best_lane` starts at
`-1`, the minimum at `INT_MAX`, `earliest_arrival` at `time(NULL)`. -/
def schedule_next_lane_sjf (lanes : Fin 4 → LaneProcess) (now : ℤ) : ℤ :=
  (sjfGo (fun i => (lanes i).state) (fun i => (lanes i).queue_length)
      (fun i => (lanes i).last_arrival_time) laneIdx ⟨-1, INT_MAX, now⟩).best

/-- Shared shape of the four strict-minimum policy scans (SRTF, aging SJF,
enhanced SJF, predictive SJF): consider `READY` lanes only, keep the first
strictly smaller score.  SRTF compares C `int`s and the other three compare
C `float`s; both comparisons are embedded exactly over `ℚ`. -/
def minGo (st : Fin 4 → LaneState) (score : Fin 4 → ℚ) :
    List (Fin 4) → ℤ → ℚ → ℤ × ℚ
  | [], best, minScore => (best, minScore)
  | i :: rest, best, minScore =>
    if st i = READY ∧ score i < minScore then
      minGo st score rest (i : ℤ) (score i)
    else
      minGo st score rest best minScore

/-- `schedule_next_lane_srtf` from `sjf_scheduler.c`:
`remaining_time = queue_length * VEHICLE_CROSS_TIME`, minimum starts at
`INT_MAX`. -/
def schedule_next_lane_srtf (lanes : Fin 4 → LaneProcess) : ℤ :=
  (minGo (fun i => (lanes i).state)
      (fun i => ((lanes i).queue_length : ℚ) * (VEHICLE_CROSS_TIME : ℚ))
      laneIdx (-1) (INT_MAX : ℚ)).1

/-- `schedule_next_lane_sjf_with_aging` from `sjf_scheduler.c`:
`priority_score = queue_length * VEHICLE_CROSS_TIME - waiting_time * 0.1`,
minimum starts at `FLT_MAX`. -/
def schedule_next_lane_sjf_with_aging (lanes : Fin 4 → LaneProcess) : ℤ :=
  (minGo (fun i => (lanes i).state)
      (fun i => ((lanes i).queue_length : ℚ) * (VEHICLE_CROSS_TIME : ℚ) -
        ((lanes i).waiting_time : ℚ) * (1 / 10))
      laneIdx (-1) FLT_MAX).1

/-- `schedule_next_lane_enhanced_sjf` from `sjf_scheduler.c`:
`weighted_score = processing_time - waiting_time * 0.2 + avg_wait * 0.1`,
minimum starts at `FLT_MAX`. -/
def schedule_next_lane_enhanced_sjf (lanes : Fin 4 → LaneProcess) : ℤ :=
  (minGo (fun i => (lanes i).state)
      (fun i => ((lanes i).queue_length : ℚ) * (VEHICLE_CROSS_TIME : ℚ) -
        ((lanes i).waiting_time : ℚ) * (2 / 10) +
        get_lane_average_wait_time (lanes i) * (1 / 10))
      laneIdx (-1) FLT_MAX).1

/-- `schedule_next_lane_predictive_sjf` from `sjf_scheduler.c`:
`predicted_time = queue_length * (throughput > 0 ? 60/throughput :
VEHICLE_CROSS_TIME)`, minimum starts at `FLT_MAX`. -/
def schedule_next_lane_predictive_sjf (lanes : Fin 4 → LaneProcess) : ℤ :=
  (minGo (fun i => (lanes i).state)
      (fun i => ((lanes i).queue_length : ℚ) *
        (if 0 < get_lane_throughput (lanes i) then
          60 / (get_lane_throughput (lanes i) : ℚ)
        else (VEHICLE_CROSS_TIME : ℚ)))
      laneIdx (-1) FLT_MAX).1

/-! ## Scheduler core and context switch (`main.c`, scheduler section) -/

/-- Scheduling algorithm tags, from `scheduler.h` usage in `main.c`. -/
inductive SchedulingAlgorithm
  | SJF
  | MULTILEVEL_FEEDBACK
  | PRIORITY_ROUND_ROBIN
deriving DecidableEq, Repr

/-- One entry of the bounded execution-history ring buffer. -/
structure ExecutionRecord where
  rec_lane_id : ℤ
  start_time : ℤ
  end_time : ℤ
  duration : ℤ
  vehicles_processed : ℤ
deriving DecidableEq, Repr

/-- The central scheduler state, from `scheduler.h` usage in `main.c`
(locks and condition variables erased). -/
structure Scheduler where
  algorithm : SchedulingAlgorithm
  ready_queue : List ℤ
  time_quantum : ℤ
  context_switch_time : ℤ
  current_lane : ℤ
  execution_history : List ExecutionRecord
  history_size : ℕ
  history_index : ℕ
  total_context_switches : ℕ
  last_schedule_time : ℤ
  scheduler_running : Bool
deriving DecidableEq, Repr

/-- `init_scheduler` from `main.c`: `current_lane = -1`,
`total_context_switches = 0`, a 1000-entry history buffer (its malloc'd
contents are uninitialized in C; the zero record stands for the arbitrary
initial contents, which no claim depends on). -/
def init_scheduler (algorithm : SchedulingAlgorithm) (now : ℤ) : Scheduler :=
  { algorithm := algorithm
    ready_queue := []
    time_quantum := DEFAULT_TIME_QUANTUM
    context_switch_time := CONTEXT_SWITCH_TIME
    current_lane := -1
    execution_history := List.replicate 1000 ⟨0, 0, 0, 0, 0⟩
    history_size := 1000
    history_index := 0
    total_context_switches := 0
    last_schedule_time := now
    scheduler_running := false }

/-- Performance counters touched by the scheduler path
(`performance_metrics.h` usage in `main.c`). -/
structure PerformanceMetrics where
  total_vehicles_processed : ℕ
  context_switch_count : ℕ
  lane_throughput : Fin 4 → ℕ
  lane_wait_times : Fin 4 → ℚ

/-- Modelled from the spec: `performance_metrics.c` is not under `src/`;
per the spec the scheduler "tracks switch counts", so the metrics-side
counter increments by one per recorded switch. -/
def update_context_switch_count (m : PerformanceMetrics) : PerformanceMetrics :=
  { m with context_switch_count := m.context_switch_count + 1 }

/-- Demotion of the previously running lane inside `context_switch`
(`main.c`): only a `RUNNING` lane is touched; it drops to `READY` when its
cached queue length is positive and to `WAITING` otherwise. -/
def context_switch_from (lane : LaneProcess) : LaneProcess :=
  if lane.state = RUNNING then
    { lane with state := if 0 < lane.queue_length then READY else WAITING }
  else lane

/-- Promotion of the newly selected lane inside `context_switch`
(`main.c`): only a `READY` lane is promoted to `RUNNING`, with
`waiting_time` reset to 0. -/
def context_switch_to (lane : LaneProcess) : LaneProcess :=
  if lane.state = READY then
    { lane with state := RUNNING, waiting_time := 0 }
  else lane

/-- `context_switch` from `main.c`: demote `from_lane` (when present, i.e.
when `current_lane >= 0`), then promote `to_lane`.  The line incrementing
`total_context_switches` is commented out in the source, so the function
does not touch the scheduler; the overhead sleeps are erased. -/
def context_switch (lanes : Fin 4 → LaneProcess) :
    Option (Fin 4) → Fin 4 → (Fin 4 → LaneProcess)
  | none, to_lane => Function.update lanes to_lane (context_switch_to (lanes to_lane))
  | some f, to_lane =>
    let l1 := Function.update lanes f (context_switch_from (lanes f))
    Function.update l1 to_lane (context_switch_to (l1 to_lane))

/-- Decode a C lane index into `Fin 4` (the policies only ever produce
`-1` or `0..3`, so `&lanes[i]` is well defined exactly on this range). -/
def decodeLane (n : ℤ) : Option (Fin 4) :=
  if h : 0 ≤ n ∧ n < 4 then some ⟨n.toNat, by omega⟩ else none

/-- The context-switch half of `schedule_next_lane` from `main.c`,
parametrized by the active policy's result `next_lane`: when it differs
from `current_lane` and is not `-1`, perform `context_switch` (the
previous lane pointer is `NULL` when `current_lane < 0`), set
`current_lane := next_lane`, and bump the metrics' switch counter if the
trylock on the global state succeeded (`got_global_lock`).  The
scheduler's own `total_context_switches` is not written anywhere on this
path. -/
def schedule_next_lane_core (scheduler : Scheduler) (lanes : Fin 4 → LaneProcess)
    (next_lane : ℤ) (got_global_lock : Bool) (m : PerformanceMetrics) (now : ℤ) :
    Scheduler × (Fin 4 → LaneProcess) × PerformanceMetrics :=
  if next_lane ≠ scheduler.current_lane ∧ next_lane ≠ -1 then
    match decodeLane next_lane with
    | some t =>
      let lanes1 := context_switch lanes (decodeLane scheduler.current_lane) t
      let m1 := if got_global_lock then update_context_switch_count m else m
      ({ scheduler with current_lane := next_lane, last_schedule_time := now },
        lanes1, m1)
    | none =>
      ({ scheduler with last_schedule_time := now }, lanes, m)
  else
    ({ scheduler with last_schedule_time := now }, lanes, m)

/-- `validate_single_lane_running` from `main.c` (with every trylock
succeeding): counts `RUNNING` lanes over the four lanes and accepts at
most one (`running_count`, loop unrolled). -/
def validate_single_lane_running (lanes : Fin 4 → LaneProcess) : Bool :=
  decide ((((if (lanes 0).state = RUNNING then 1 else 0) +
    (if (lanes 1).state = RUNNING then 1 else 0) +
    (if (lanes 2).state = RUNNING then 1 else 0) +
    (if (lanes 3).state = RUNNING then 1 else 0) : ℕ)) ≤ 1)

/-- `record_execution` from `main.c`: under a successful trylock, write the
record at `history_index` and advance the ring index; a `NULL` history
buffer (size 0) is rejected up front. -/
def record_execution (scheduler : Scheduler) (lane_id : ℤ) (start_time end_time : ℤ)
    (vehicles_processed : ℤ) (got_sched_lock : Bool) : Scheduler :=
  if scheduler.history_size = 0 then scheduler
  else if got_sched_lock then
    { scheduler with
        execution_history := scheduler.execution_history.set scheduler.history_index
          ⟨lane_id, start_time, end_time, end_time - start_time, vehicles_processed⟩
        history_index := (scheduler.history_index + 1) % scheduler.history_size }
  else scheduler

/-- `execute_lane_time_slice` from `main.c`: one unlocked dequeue; on
success the global metrics are credited with the vehicle and its waiting
time (clamped at 0); an execution record is appended (trylock permitting);
finally the lane drops `RUNNING → WAITING` only when the queue is now
empty, and is left untouched otherwise.  `time_quantum` is unused in the
source; the crossing-delay sleeps are erased and the time stamps are
parameters. -/
def execute_lane_time_slice (scheduler : Scheduler) (lane : LaneProcess)
    (m : PerformanceMetrics) (start_time now end_time : ℤ)
    (got_sched_lock : Bool) : Scheduler × LaneProcess × PerformanceMetrics × ℤ :=
  let r := remove_vehicle_from_lane_unlocked lane
  let vehicle_id := r.1
  let lane1 := r.2
  let vehicles_processed : ℤ := if vehicle_id ≠ -1 then 1 else 0
  let m1 :=
    if vehicle_id ≠ -1 then
      let wait_time_sec : ℤ := max (now - lane1.last_arrival_time) 0
      { m with
          total_vehicles_processed := m.total_vehicles_processed + 1
          lane_throughput := fun j =>
            if (lane1.lane_id : ℤ) = (j : ℤ) then m.lane_throughput j + 1
            else m.lane_throughput j
          lane_wait_times := fun j =>
            if (lane1.lane_id : ℤ) = (j : ℤ) then m.lane_wait_times j + wait_time_sec
            else m.lane_wait_times j }
    else m
  let scheduler1 := record_execution scheduler lane1.lane_id start_time end_time
    vehicles_processed got_sched_lock
  let lane2 :=
    if lane1.queue_length = 0 ∧ lane1.state = RUNNING then
      { lane1 with state := WAITING }
    else lane1
  (scheduler1, lane2, m1, vehicles_processed)

/-- The per-lane reset loop of `set_scheduling_algorithm` from `main.c`:
any `RUNNING` lane drops to `READY`/`WAITING` according to its queue. -/
def reset_running_lane (lane : LaneProcess) : LaneProcess :=
  if lane.state = RUNNING then
    { lane with state := if 0 < lane.queue_length then READY else WAITING }
  else lane

/-- `set_scheduling_algorithm` from `main.c`: under a successful trylock on
the scheduler, switch the algorithm, reset `current_lane` to `-1`, and —
when the simulation is running — demote every `RUNNING` lane and clear the
ready queue; a failed trylock skips the change entirely. -/
def set_scheduling_algorithm (scheduler : Scheduler) (lanes : Fin 4 → LaneProcess)
    (algorithm : SchedulingAlgorithm) (got_sched_lock : Bool)
    (simulation_running : Bool) : Scheduler × (Fin 4 → LaneProcess) :=
  if got_sched_lock then
    let lanes1 := if simulation_running then
        (fun i => reset_running_lane (lanes i))
      else lanes
    let rq := if simulation_running then ([] : List ℤ) else scheduler.ready_queue
    ({ scheduler with algorithm := algorithm, current_lane := -1, ready_queue := rq },
      lanes1)
  else (scheduler, lanes)

/-- `calculate_context_switch_overhead` from `main.c` (successful trylock
branch). -/
def calculate_context_switch_overhead (scheduler : Scheduler) : ℤ :=
  (scheduler.total_context_switches : ℤ) * scheduler.context_switch_time

/-! ## The global system and its event semantics

`TrafficGuruSystem` state with the threads' critical sections turned into
atomic events.  The trace alphabet covers the operations of the running
simulation named by the spec: lane ticks, vehicle generation, scheduling
(with context switch), time slices, user input (pause, policy switch,
emergency key, quit, help), and the spec-modelled emergency trigger and
deadlock resolution.  Every outcome of a trylock and every policy result
appears as an event parameter, so the traces over-approximate all thread
interleavings of the C program during the simulation phase (between
`start_traffic_simulation` and the first shutdown/signal action, which is
the phase the spec's reachability properties quantify over). -/

/-- Global system state (`TrafficGuruSystem` in `trafficguru.h`, threads
and locks erased; display-only fields dropped). -/
structure SysState where
  lanes : Fin 4 → LaneProcess
  scheduler : Scheduler
  metrics : PerformanceMetrics
  simulation_running : Bool
  simulation_paused : Bool
  total_vehicles_generated : ℤ
  continue_flag : Bool
  show_help : Bool
  pause_requested : Bool
  emergency_pending : Bool

/-- Body of `vehicle_generator_loop` from `main.c` (one iteration, not
paused): draw a fresh vehicle id from the global counter, enqueue it into
the chosen lane, possibly raise an emergency (1-in-100 roll, modelled by
`emergency_roll`; the emergency-system insertion itself lives in the
missing `emergency_system.c`, spec-modelled as a pending flag), then wake
the lane: `WAITING → READY` with `waiting_time := 0`. -/
def vehicle_generator_iter (s : SysState) (lane_idx : Fin 4) (emergency_roll : Bool)
    (now : ℤ) : SysState :=
  let vid := s.total_vehicles_generated
  let lane1 := add_vehicle_to_lane (s.lanes lane_idx) vid now
  let lane2 :=
    if lane1.state = WAITING then { lane1 with state := READY, waiting_time := 0 }
    else lane1
  { s with
      total_vehicles_generated := vid + 1
      lanes := Function.update s.lanes lane_idx lane2
      emergency_pending := if emergency_roll then true else s.emergency_pending }

/-- `handle_user_input` from `visualization.c`, dispatch on the pressed key
(as the C `int` from `wgetch`; `ERR` is any negative value, `q`=113,
`Q`=81, space=32, `1`=49, `2`=50, `3`=51, `e`=101, `E`=69, `h`=104,
`H`=72).  The `e`/`E` branch is `(void)0` in the source — the call to
`trigger_emergency_vehicle` is commented out ("to fix build error"), so
the emergency key performs no operation. -/
def handle_user_input (s : SysState) (ch : ℤ) (got_sched_lock : Bool) : SysState :=
  if s.show_help then
    if ch ≠ -1 then
      { s with
          show_help := false
          simulation_paused := if s.pause_requested then true else false
          pause_requested := false }
    else s
  else if ch = 113 ∨ ch = 81 then
    { s with continue_flag := false }
  else if ch = 32 then
    { s with simulation_paused := !s.simulation_paused }
  else if ch = 49 then
    let r := set_scheduling_algorithm s.scheduler s.lanes SchedulingAlgorithm.SJF
      got_sched_lock s.simulation_running
    { s with scheduler := r.1, lanes := r.2 }
  else if ch = 50 then
    let r := set_scheduling_algorithm s.scheduler s.lanes
      SchedulingAlgorithm.MULTILEVEL_FEEDBACK got_sched_lock s.simulation_running
    { s with scheduler := r.1, lanes := r.2 }
  else if ch = 51 then
    let r := set_scheduling_algorithm s.scheduler s.lanes
      SchedulingAlgorithm.PRIORITY_ROUND_ROBIN got_sched_lock s.simulation_running
    { s with scheduler := r.1, lanes := r.2 }
  else if ch = 101 ∨ ch = 69 then
    s
  else if ch = 104 ∨ ch = 72 then
    if s.simulation_paused then
      { s with show_help := true, pause_requested := true }
    else
      { s with show_help := true, simulation_paused := true, pause_requested := false }
  else s

/-- Modelled from the spec: the deadlock resolver (its sweep lives outside
`src/`) "selects a victim and force-releases its resources, moving it to
WAITING"; a non-`BLOCKED` victim is left alone. -/
def resolve_deadlock_victim (lane : LaneProcess) : LaneProcess :=
  if lane.state = BLOCKED then
    { (release_intersection_quadrants lane) with state := WAITING }
  else lane

/-- Events of the running simulation.  `schedule` carries the active
policy's result as a parameter: for the in-`src` SJF family the result is
provably `-1` or a `READY` lane, and the missing multilevel/priority
policies obey the same contract per the spec, so quantifying over an
arbitrary `next_lane` covers every policy. -/
inductive Event
  | tick (lane : Fin 4) (arrival : Option ℤ) (now : ℤ)
  | generate (lane : Fin 4) (emergency_roll : Bool) (now : ℤ)
  | schedule (next_lane : ℤ) (got_global_lock : Bool) (now : ℤ)
  | timeslice (lane : Fin 4) (start_time now end_time : ℤ) (got_sched_lock : Bool)
  | input (ch : ℤ) (got_sched_lock : Bool)
  | emergencyTrigger (lane : Fin 4)
  | resolveDeadlock (victim : Fin 4)

/-- One atomic transition of the system. -/
def step (s : SysState) : Event → SysState
  | .tick lane arrival now =>
    { s with lanes :=
        Function.update s.lanes lane (lane_process_tick (s.lanes lane) arrival now) }
  | .generate lane emergency_roll now =>
    vehicle_generator_iter s lane emergency_roll now
  | .schedule next_lane got_global_lock now =>
    let r := schedule_next_lane_core s.scheduler s.lanes next_lane got_global_lock
      s.metrics now
    { s with scheduler := r.1, lanes := r.2.1, metrics := r.2.2 }
  | .timeslice lane start_time now end_time got_sched_lock =>
    let r := execute_lane_time_slice s.scheduler (s.lanes lane) s.metrics
      start_time now end_time got_sched_lock
    { s with
        scheduler := r.1
        lanes := Function.update s.lanes lane r.2.1
        metrics := r.2.2.1 }
  | .input ch got_sched_lock => handle_user_input s ch got_sched_lock
  | .emergencyTrigger _ => { s with emergency_pending := true }
  | .resolveDeadlock victim =>
    { s with lanes :=
        Function.update s.lanes victim (resolve_deadlock_victim (s.lanes victim)) }

/-- The system right after `init_traffic_guru_system` +
`start_traffic_simulation` in `main`: four freshly initialized lanes, an
initialized scheduler carrying the command-line algorithm, zeroed metrics,
`simulation_running = true`. -/
def startState (algorithm : SchedulingAlgorithm) (t0 : ℤ) : SysState :=
  { lanes := fun i => init_lane_process (i : ℤ) MAX_QUEUE_CAPACITY t0
    scheduler := { init_scheduler algorithm t0 with scheduler_running := true }
    metrics :=
      { total_vehicles_processed := 0
        context_switch_count := 0
        lane_throughput := fun _ => 0
        lane_wait_times := fun _ => 0 }
    simulation_running := true
    simulation_paused := false
    total_vehicles_generated := 0
    continue_flag := true
    show_help := false
    pause_requested := false
    emergency_pending := false }

/-- Reachability: every state an event trace can produce from a started
system. -/
def Reachable (s : SysState) : Prop :=
  ∃ (algorithm : SchedulingAlgorithm) (t0 : ℤ) (events : List Event),
    s = events.foldl step (startState algorithm t0)

/-- At most one lane is in the `RUNNING` state. -/
def AtMostOneRunning (s : SysState) : Prop :=
  ∀ i j : Fin 4, (s.lanes i).state = RUNNING → (s.lanes j).state = RUNNING → i = j

/-- Strengthened inductive invariant: the simulation is in its running
phase and every `RUNNING` lane is the scheduler's `current_lane`. -/
def SchedInv (s : SysState) : Prop :=
  s.simulation_running = true ∧
  ∀ i : Fin 4, (s.lanes i).state = RUNNING → s.scheduler.current_lane = (i : ℤ)

/-- SJF cost of a lane, as computed by `schedule_next_lane_sjf`. -/
def sjf_cost (lanes : Fin 4 → LaneProcess) (i : Fin 4) : ℤ :=
  ((lanes i).queue_length : ℤ) * VEHICLE_CROSS_TIME

/-- The policy input/output contract of the spec: never select a
non-`READY` lane, return `-1` when (and only when) no lane is `READY`,
and produce nothing outside `{-1} ∪ {0,1,2,3}`. -/
def PolicyOk (f : (Fin 4 → LaneProcess) → ℤ) (lanes : Fin 4 → LaneProcess) : Prop :=
  ((∀ i : Fin 4, (lanes i).state ≠ READY) → f lanes = -1) ∧
  (∀ r : Fin 4, f lanes = (r : ℤ) → (lanes r).state = READY) ∧
  ((∃ i : Fin 4, (lanes i).state = READY) → f lanes ≠ -1) ∧
  (f lanes = -1 ∨ ∃ r : Fin 4, f lanes = (r : ℤ))

/-- Loop invariant of the `schedule_next_lane_sjf` scan, relative to the
set `P` of already-processed indices: either nothing was selected yet and
no processed lane was `READY`, or the accumulator holds a `READY` lane of
minimum cost among the processed `READY` lanes, with ties broken towards
the earliest `last_arrival_time`. -/
def SJFAccGood (st : Fin 4 → LaneState) (ql : Fin 4 → ℕ) (arr : Fin 4 → ℤ)
    (P : Fin 4 → Prop) (acc : SJFAcc) : Prop :=
  (acc.best = -1 ∧ acc.minEst = INT_MAX ∧ ∀ i, P i → st i ≠ READY) ∨
  (∃ r : Fin 4, acc.best = (r : ℤ) ∧ st r = READY ∧
    acc.minEst = (ql r : ℤ) * VEHICLE_CROSS_TIME ∧ acc.earliest = arr r ∧
    ∀ i, P i → st i = READY →
      ((ql r : ℤ) * VEHICLE_CROSS_TIME < (ql i : ℤ) * VEHICLE_CROSS_TIME ∨
        ((ql r : ℤ) * VEHICLE_CROSS_TIME = (ql i : ℤ) * VEHICLE_CROSS_TIME ∧
          arr r ≤ arr i)))

/-- Compact concrete-lane builder used by the concrete test states. -/
def mkLane (lane_id : ℤ) (st : LaneState) (items : List ℤ) (cap : ℕ) (arr : ℤ) :
    LaneProcess :=
  { lane_id := lane_id
    queue := { items := items, capacity := cap }
    queue_length := items.length
    max_queue_length := cap
    state := st
    priority := 2
    waiting_time := 0
    last_arrival_time := arr
    last_service_time := 0
    total_vehicles_served := 0
    total_waiting_time := 0
    requested_quadrants := 0
    allocated_quadrants := 0 }

/-- The spec's SJF selection scenario: three `READY` lanes with queue
lengths 3, 1, 2 (so costs 9, 3, 6 at cross time 3) and one idle lane. -/
def c2Lanes : Fin 4 → LaneProcess := fun i =>
  if i = 0 then mkLane 0 READY [10, 11, 12] 20 5
  else if i = 1 then mkLane 1 READY [20] 20 6
  else if i = 2 then mkLane 2 READY [30, 31] 20 7
  else mkLane 3 WAITING [] 20 8

/-- Concrete lanes for the context-switch scenarios: lane 0 RUNNING with a
non-empty queue, lane 1 READY, lane 2 WAITING, lane 3 BLOCKED. -/
def c4Lanes : Fin 4 → LaneProcess := fun i =>
  if i = 0 then { mkLane 0 RUNNING [40] 20 1 with waiting_time := 7 }
  else if i = 1 then { mkLane 1 READY [41, 42] 20 2 with waiting_time := 9 }
  else if i = 2 then { mkLane 2 WAITING [] 20 3 with waiting_time := 4 }
  else { mkLane 3 BLOCKED [43] 20 4 with waiting_time := 6 }

/-- Zeroed metrics for the concrete scenarios. -/
def c4Metrics0 : PerformanceMetrics :=
  { total_vehicles_processed := 0
    context_switch_count := 0
    lane_throughput := fun _ => 0
    lane_wait_times := fun _ => 0 }

/-- Concrete lanes with a live quadrant allocation (for the release
scenario): lane 1 holds 3 quadrants and requests 1 more. -/
def c9Lanes : Fin 4 → LaneProcess := fun i =>
  if i = 1 then
    { mkLane 1 BLOCKED [50] 20 2 with
        allocated_quadrants := 3
        requested_quadrants := 1 }
  else mkLane (i : ℤ) WAITING [] 20 0

/-- Modelled from the spec: `bankers_algorithm.c` is not under `src/`; the
spec's resource state keeps `available = total − Σ allocation` with
`total = 4` quadrants. -/
def available_quadrants (lanes : Fin 4 → LaneProcess) : ℤ :=
  4 - (((lanes 0).allocated_quadrants : ℤ) + ((lanes 1).allocated_quadrants : ℤ) +
    ((lanes 2).allocated_quadrants : ℤ) + ((lanes 3).allocated_quadrants : ℤ))

/-! ## Lemmas about the policy scans -/

lemma finCast_ne_neg_one : ∀ r : Fin 4, (r : ℤ) ≠ -1 := by decide

lemma finCast_inj : ∀ r r' : Fin 4, (r : ℤ) = (r' : ℤ) → r = r' := by decide

lemma mem_laneIdx : ∀ i : Fin 4, i ∈ laneIdx := by decide

lemma minGo_best_eq_or_ready (st : Fin 4 → LaneState) (sc : Fin 4 → ℚ) :
    ∀ (L : List (Fin 4)) (b : ℤ) (m : ℚ),
      (minGo st sc L b m).1 = b ∨
        ∃ r : Fin 4, (minGo st sc L b m).1 = (r : ℤ) ∧ st r = READY := by
  intro L
  induction L with
  | nil => intro b m; left; rfl
  | cons i rest ih =>
    intro b m
    by_cases h : st i = READY ∧ sc i < m
    · rw [minGo, if_pos h]
      rcases ih (i : ℤ) (sc i) with h1 | h2
      · exact Or.inr ⟨i, h1, h.1⟩
      · exact Or.inr h2
    · rw [minGo, if_neg h]
      exact ih b m

lemma minGo_ne_neg_one (st : Fin 4 → LaneState) (sc : Fin 4 → ℚ) :
    ∀ (L : List (Fin 4)) (b : ℤ) (m : ℚ), b ≠ -1 → (minGo st sc L b m).1 ≠ -1 := by
  intro L
  induction L with
  | nil => intro b m hb; exact hb
  | cons i rest ih =>
    intro b m hb
    by_cases h : st i = READY ∧ sc i < m
    · rw [minGo, if_pos h]
      exact ih (i : ℤ) (sc i) (finCast_ne_neg_one i)
    · rw [minGo, if_neg h]
      exact ih b m hb

lemma minGo_progress (st : Fin 4 → LaneState) (sc : Fin 4 → ℚ) (M : ℚ)
    (hM : ∀ i, st i = READY → sc i < M) :
    ∀ (L : List (Fin 4)) (b : ℤ) (m : ℚ), (b = -1 → m = M) →
      (∃ i ∈ L, st i = READY) → (minGo st sc L b m).1 ≠ -1 := by
  intro L
  induction L with
  | nil =>
    intro b m _ hex
    rcases hex with ⟨i, hi, _⟩
    exact absurd hi (List.not_mem_nil i)
  | cons j rest ih =>
    intro b m hbm hex
    by_cases h : st j = READY ∧ sc j < m
    · rw [minGo, if_pos h]
      exact minGo_ne_neg_one st sc rest (j : ℤ) (sc j) (finCast_ne_neg_one j)
    · rw [minGo, if_neg h]
      rcases hex with ⟨i, hi, hri⟩
      rcases List.mem_cons.mp hi with hij | hirest
      · subst hij
        by_cases hb : b = -1
        · exact absurd ⟨hri, hbm hb ▸ hM i hri⟩ h
        · exact minGo_ne_neg_one st sc rest b m hb
      · exact ih b m hbm ⟨i, hirest, hri⟩

/-- The four strict-minimum policies satisfy the spec's policy contract,
given that every `READY` lane's score beats the initial minimum. -/
lemma minGo_result_spec (st : Fin 4 → LaneState) (sc : Fin 4 → ℚ) (M : ℚ)
    (hM : ∀ i, st i = READY → sc i < M) :
    ((∀ i : Fin 4, st i ≠ READY) → (minGo st sc laneIdx (-1) M).1 = -1) ∧
    (∀ r : Fin 4, (minGo st sc laneIdx (-1) M).1 = (r : ℤ) → st r = READY) ∧
    ((∃ i : Fin 4, st i = READY) → (minGo st sc laneIdx (-1) M).1 ≠ -1) ∧
    ((minGo st sc laneIdx (-1) M).1 = -1 ∨
      ∃ r : Fin 4, (minGo st sc laneIdx (-1) M).1 = (r : ℤ)) := by
  have hcases := minGo_best_eq_or_ready st sc laneIdx (-1) M
  refine ⟨?_, ?_, ?_, ?_⟩
  · intro hnone
    rcases hcases with h | ⟨r, _, hr⟩
    · exact h
    · exact absurd hr (hnone r)
  · intro r hr
    rcases hcases with h | ⟨r', hr', hready⟩
    · exact absurd (hr.symm.trans h) (finCast_ne_neg_one r)
    · rw [hr] at hr'
      rw [finCast_inj r r' hr']
      exact hready
  · intro ⟨i, hi⟩
    exact minGo_progress st sc M hM laneIdx (-1) M (fun _ => rfl)
      ⟨i, mem_laneIdx i, hi⟩
  · rcases hcases with h | ⟨r, hr, _⟩
    · exact Or.inl h
    · exact Or.inr ⟨r, hr⟩

lemma SJFAccGood_mono (st : Fin 4 → LaneState) (ql : Fin 4 → ℕ) (arr : Fin 4 → ℤ)
    {P Q : Fin 4 → Prop} (hPQ : ∀ i, P i → Q i) {acc : SJFAcc}
    (h : SJFAccGood st ql arr Q acc) : SJFAccGood st ql arr P acc := by
  rcases h with ⟨h1, h2, h3⟩ | ⟨r, h1, h2, h3, h4, h5⟩
  · exact Or.inl ⟨h1, h2, fun i hi => h3 i (hPQ i hi)⟩
  · exact Or.inr ⟨r, h1, h2, h3, h4, fun i hi hri => h5 i (hPQ i hi) hri⟩

/-- Main induction for the SJF scan: processing a list of indices keeps
the accumulator invariant, now also accounting for the new indices. -/
lemma sjfGo_spec (st : Fin 4 → LaneState) (ql : Fin 4 → ℕ) (arr : Fin 4 → ℤ)
    (hql : ∀ i, (ql i : ℤ) * VEHICLE_CROSS_TIME < INT_MAX) :
    ∀ (L : List (Fin 4)) (P : Fin 4 → Prop) (acc : SJFAcc),
      SJFAccGood st ql arr P acc →
      SJFAccGood st ql arr (fun i => P i ∨ i ∈ L) (sjfGo st ql arr L acc) := by
  intro L
  induction L with
  | nil =>
    intro P acc hacc
    exact SJFAccGood_mono st ql arr
      (fun i hi => hi.elim id (fun h => absurd h (List.not_mem_nil i))) hacc
  | cons j rest ih =>
    intro P acc hacc
    have hmono : ∀ acc', SJFAccGood st ql arr
        (fun i => (P i ∨ i = j) ∨ i ∈ rest) acc' →
        SJFAccGood st ql arr (fun i => P i ∨ i ∈ j :: rest) acc' := by
      intro acc'
      refine SJFAccGood_mono st ql arr (fun i hi => ?_)
      rcases hi with hp | hm
      · exact Or.inl (Or.inl hp)
      · rcases List.mem_cons.mp hm with he | hr
        · exact Or.inl (Or.inr he)
        · exact Or.inr hr
    by_cases hready : st j = READY
    · by_cases hlt : (ql j : ℤ) * VEHICLE_CROSS_TIME < acc.minEst
      · rw [sjfGo, if_pos hready, if_pos hlt]
        refine hmono _ (ih _ _ ?_)
        refine Or.inr ⟨j, rfl, hready, rfl, rfl, ?_⟩
        intro i hi hri
        rcases hi with hp | he
        · rcases hacc with ⟨_, hm, hnone⟩ | ⟨r, _, _, hm, _, hmin⟩
          · exact absurd hri (hnone i hp)
          · rw [hm] at hlt
            rcases hmin i hp hri with hc | ⟨hc, _⟩
            · exact Or.inl (by linarith)
            · exact Or.inl (by linarith)
        · subst he
          exact Or.inr ⟨rfl, le_refl _⟩
      · by_cases htie : (ql j : ℤ) * VEHICLE_CROSS_TIME = acc.minEst ∧
            arr j < acc.earliest
        · rw [sjfGo, if_pos hready, if_neg hlt, if_pos htie]
          rcases hacc with ⟨_, hm, _⟩ | ⟨r, _, hrr, hm, he, hmin⟩
          · exact absurd (hm ▸ htie.1) (ne_of_lt (hql j))
          · refine hmono _ (ih _ _ ?_)
            have hcost : acc.minEst = (ql j : ℤ) * VEHICLE_CROSS_TIME := htie.1.symm
            refine Or.inr ⟨j, rfl, hready, hcost, rfl, ?_⟩
            intro i hi hri
            have hjr : (ql j : ℤ) * VEHICLE_CROSS_TIME =
                (ql r : ℤ) * VEHICLE_CROSS_TIME := by rw [htie.1, hm]
            rcases hi with hp | hij
            · rcases hmin i hp hri with hc | ⟨hc, ha⟩
              · exact Or.inl (by linarith)
              · refine Or.inr ⟨by linarith, ?_⟩
                have hje : arr j < arr r := he ▸ htie.2
                omega
            · subst hij
              exact Or.inr ⟨rfl, le_refl _⟩
        · rw [sjfGo, if_pos hready, if_neg hlt, if_neg htie]
          rcases hacc with ⟨_, hm, _⟩ | ⟨r, hb, hrr, hm, he, hmin⟩
          · refine absurd hm ?_
            intro h
            rw [h] at hlt
            exact hlt (hql j)
          · refine hmono _ (ih _ _ ?_)
            refine Or.inr ⟨r, hb, hrr, hm, he, ?_⟩
            intro i hi hri
            rcases hi with hp | hij
            · exact hmin i hp hri
            · subst hij
              rw [hm] at hlt htie
              rw [he] at htie
              have hle : (ql r : ℤ) * VEHICLE_CROSS_TIME ≤
                  (ql i : ℤ) * VEHICLE_CROSS_TIME := not_lt.mp hlt
              rcases lt_or_eq_of_le hle with hc | hc
              · exact Or.inl hc
              · refine Or.inr ⟨hc, ?_⟩
                by_contra hcontra
                exact htie ⟨hc.symm, by omega⟩
    · rw [sjfGo, if_neg hready]
      refine hmono _ (ih _ _ ?_)
      rcases hacc with ⟨h1, h2, h3⟩ | ⟨r, h1, h2, h3, h4, h5⟩
      · refine Or.inl ⟨h1, h2, fun i hi => ?_⟩
        rcases hi with hp | hij
        · exact h3 i hp
        · subst hij; exact hready
      · refine Or.inr ⟨r, h1, h2, h3, h4, fun i hi hri => ?_⟩
        rcases hi with hp | hij
        · exact h5 i hp hri
        · subst hij; exact absurd hri hready

/-- Characterization of `schedule_next_lane_sjf`: on a snapshot whose
queue lengths respect the capacity bound, the policy returns `-1` exactly
when no lane is `READY`, and otherwise a `READY` lane of minimum
`queue_length * VEHICLE_CROSS_TIME` cost, ties broken towards the
earliest arrival. -/
lemma sjf_result_spec (lanes : Fin 4 → LaneProcess) (now : ℤ)
    (hql : ∀ i, (lanes i).queue_length ≤ MAX_QUEUE_CAPACITY) :
    ((∀ i : Fin 4, (lanes i).state ≠ READY) → schedule_next_lane_sjf lanes now = -1) ∧
    (∀ r : Fin 4, schedule_next_lane_sjf lanes now = (r : ℤ) →
      (lanes r).state = READY ∧
      ∀ i : Fin 4, (lanes i).state = READY →
        sjf_cost lanes r < sjf_cost lanes i ∨
          (sjf_cost lanes r = sjf_cost lanes i ∧
            (lanes r).last_arrival_time ≤ (lanes i).last_arrival_time)) ∧
    ((∃ i : Fin 4, (lanes i).state = READY) → schedule_next_lane_sjf lanes now ≠ -1) ∧
    (schedule_next_lane_sjf lanes now = -1 ∨
      ∃ r : Fin 4, schedule_next_lane_sjf lanes now = (r : ℤ)) := by
  have hql' : ∀ i : Fin 4,
      (((lanes i).queue_length : ℤ)) * VEHICLE_CROSS_TIME < INT_MAX := by
    intro i
    have h := hql i
    simp only [MAX_QUEUE_CAPACITY] at h
    simp only [VEHICLE_CROSS_TIME, INT_MAX]
    omega
  have hinit : SJFAccGood (fun i => (lanes i).state)
      (fun i => (lanes i).queue_length) (fun i => (lanes i).last_arrival_time)
      (fun _ => False) ⟨-1, INT_MAX, now⟩ :=
    Or.inl ⟨rfl, rfl, fun i hi => hi.elim⟩
  have hfinal := sjfGo_spec (fun i => (lanes i).state)
    (fun i => (lanes i).queue_length) (fun i => (lanes i).last_arrival_time)
    hql' laneIdx (fun _ => False) ⟨-1, INT_MAX, now⟩ hinit
  have hres : schedule_next_lane_sjf lanes now =
      (sjfGo (fun i => (lanes i).state) (fun i => (lanes i).queue_length)
        (fun i => (lanes i).last_arrival_time) laneIdx ⟨-1, INT_MAX, now⟩).best := rfl
  refine ⟨?_, ?_, ?_, ?_⟩
  · intro hnone
    rcases hfinal with ⟨h1, _, _⟩ | ⟨r, _, hrr, _, _, _⟩
    · rw [hres]; exact h1
    · exact absurd hrr (hnone r)
  · intro r hr
    rw [hres] at hr
    rcases hfinal with ⟨h1, _, _⟩ | ⟨r', hb, hrr, _, _, hmin⟩
    · exact absurd (hr.symm.trans h1) (finCast_ne_neg_one r)
    · have heq : r = r' := finCast_inj r r' (hr.symm.trans hb)
      subst heq
      refine ⟨hrr, fun i hri => ?_⟩
      exact hmin i (Or.inr (mem_laneIdx i)) hri
  · intro ⟨i, hi⟩ hneg
    rw [hres] at hneg
    rcases hfinal with ⟨_, _, h3⟩ | ⟨r, hb, _, _, _, _⟩
    · exact h3 i (Or.inr (mem_laneIdx i)) hi
    · exact finCast_ne_neg_one r (hb.symm.trans hneg)
  · rcases hfinal with ⟨h1, _, _⟩ | ⟨r, hb, _, _, _, _⟩
    · exact Or.inl (hres.trans h1)
    · exact Or.inr ⟨r, hres.trans hb⟩

lemma queue_length_cast_le (lanes : Fin 4 → LaneProcess)
    (hql : ∀ i, (lanes i).queue_length ≤ MAX_QUEUE_CAPACITY) (i : Fin 4) :
    ((lanes i).queue_length : ℚ) ≤ 20 := by
  have h := hql i
  simp only [MAX_QUEUE_CAPACITY] at h
  exact_mod_cast h

lemma avg_wait_nonneg (lane : LaneProcess) : 0 ≤ get_lane_average_wait_time lane := by
  unfold get_lane_average_wait_time
  split
  · exact le_refl 0
  · positivity

lemma avg_wait_le (lane : LaneProcess)
    (htw : lane.total_waiting_time ≤ 2147483647) :
    get_lane_average_wait_time lane ≤ 2147483647 := by
  unfold get_lane_average_wait_time
  split
  · norm_num
  · rename_i h
    have h1 : (1 : ℚ) ≤ (lane.total_vehicles_served : ℚ) := by
      exact_mod_cast Nat.one_le_iff_ne_zero.mpr h
    have h2 : (lane.total_waiting_time : ℚ) ≤ 2147483647 := by exact_mod_cast htw
    calc (lane.total_waiting_time : ℚ) / (lane.total_vehicles_served : ℚ) ≤
        (lane.total_waiting_time : ℚ) :=
          div_le_self (Nat.cast_nonneg _) h1
      _ ≤ 2147483647 := h2

/-- C2: the SJF policy considers exactly the lanes whose state is READY,
costs each candidate `queueLength × crossTime`, and returns a candidate of
minimum cost, ties broken by the earlier last-arrival time; in particular,
on READY lanes with queue lengths `[3,1,2]` at cross time 3 it selects the
lane with queue length 1. -/
theorem C2_sjf_selection :
    (∀ (lanes : Fin 4 → LaneProcess) (now : ℤ),
      (∀ i, (lanes i).queue_length ≤ MAX_QUEUE_CAPACITY) →
      (∀ r : Fin 4, schedule_next_lane_sjf lanes now = (r : ℤ) →
        (lanes r).state = READY ∧
        ∀ i : Fin 4, (lanes i).state = READY →
          sjf_cost lanes r < sjf_cost lanes i ∨
            (sjf_cost lanes r = sjf_cost lanes i ∧
              (lanes r).last_arrival_time ≤ (lanes i).last_arrival_time)) ∧
      ((∀ i : Fin 4, (lanes i).state ≠ READY) →
        schedule_next_lane_sjf lanes now = -1) ∧
      ((∃ i : Fin 4, (lanes i).state = READY) →
        schedule_next_lane_sjf lanes now ≠ -1)) ∧
    schedule_next_lane_sjf c2Lanes 100 = 1 ∧
    (c2Lanes 1).queue_length = 1 ∧ VEHICLE_CROSS_TIME = 3 := by
  refine ⟨?_, by decide, by decide, by decide⟩
  intro lanes now hql
  obtain ⟨h1, h2, h3, _⟩ := sjf_result_spec lanes now hql
  exact ⟨h2, h1, h3⟩

/-- Witness for C2: the concrete `[3,1,2]` scenario satisfies the
hypotheses, and the selected lane (index 1) is READY. -/
theorem C2_sjf_selection_witness :
    (c2Lanes 1).state = READY ∧ schedule_next_lane_sjf c2Lanes 100 ≠ -1 :=
  ⟨((C2_sjf_selection.1 c2Lanes 100 (by decide)).1 1 (by decide)).1,
    (C2_sjf_selection.1 c2Lanes 100 (by decide)).2.2 ⟨1, by decide⟩⟩

/-- C3: every implemented policy — SJF, SRTF, aging SJF, weighted/enhanced
SJF, predictive SJF — never returns the index of a non-READY lane, returns
`-1` when no lane is READY, and produces nothing outside `{-1, 0, 1, 2, 3}`
(on snapshots respecting the queue-capacity bound and the C `int` range of
the cumulative waiting time). -/
theorem C3_policies_ready_contract (lanes : Fin 4 → LaneProcess) (now : ℤ)
    (hql : ∀ i, (lanes i).queue_length ≤ MAX_QUEUE_CAPACITY)
    (htw : ∀ i, (lanes i).total_waiting_time ≤ 2147483647) :
    PolicyOk (fun l => schedule_next_lane_sjf l now) lanes ∧
    PolicyOk schedule_next_lane_srtf lanes ∧
    PolicyOk schedule_next_lane_sjf_with_aging lanes ∧
    PolicyOk schedule_next_lane_enhanced_sjf lanes ∧
    PolicyOk schedule_next_lane_predictive_sjf lanes := by
  refine ⟨?_, ?_, ?_, ?_, ?_⟩
  · obtain ⟨h1, h2, h3, h4⟩ := sjf_result_spec lanes now hql
    exact ⟨h1, fun r hr => (h2 r hr).1, h3, h4⟩
  · have hM : ∀ i : Fin 4, (lanes i).state = READY →
        ((lanes i).queue_length : ℚ) * (VEHICLE_CROSS_TIME : ℚ) < (INT_MAX : ℚ) := by
      intro i _
      have h20 := queue_length_cast_le lanes hql i
      have h0 : (0 : ℚ) ≤ ((lanes i).queue_length : ℚ) := Nat.cast_nonneg _
      simp only [VEHICLE_CROSS_TIME, INT_MAX]
      push_cast
      linarith
    exact minGo_result_spec (fun i => (lanes i).state) _ _ hM
  · have hM : ∀ i : Fin 4, (lanes i).state = READY →
        ((lanes i).queue_length : ℚ) * (VEHICLE_CROSS_TIME : ℚ) -
          ((lanes i).waiting_time : ℚ) * (1 / 10) < FLT_MAX := by
      intro i _
      have h20 := queue_length_cast_le lanes hql i
      have h0 : (0 : ℚ) ≤ ((lanes i).queue_length : ℚ) := Nat.cast_nonneg _
      have hw : (0 : ℚ) ≤ ((lanes i).waiting_time : ℚ) := Nat.cast_nonneg _
      have hbig : (60 : ℚ) < FLT_MAX := by unfold FLT_MAX; norm_num
      simp only [VEHICLE_CROSS_TIME]
      push_cast
      linarith
    exact minGo_result_spec (fun i => (lanes i).state) _ _ hM
  · have hM : ∀ i : Fin 4, (lanes i).state = READY →
        ((lanes i).queue_length : ℚ) * (VEHICLE_CROSS_TIME : ℚ) -
          ((lanes i).waiting_time : ℚ) * (2 / 10) +
          get_lane_average_wait_time (lanes i) * (1 / 10) < FLT_MAX := by
      intro i _
      have h20 := queue_length_cast_le lanes hql i
      have h0 : (0 : ℚ) ≤ ((lanes i).queue_length : ℚ) := Nat.cast_nonneg _
      have hw : (0 : ℚ) ≤ ((lanes i).waiting_time : ℚ) := Nat.cast_nonneg _
      have havg := avg_wait_le (lanes i) (htw i)
      have hbig : (60 : ℚ) + 2147483647 * (1 / 10) < FLT_MAX := by
        unfold FLT_MAX; norm_num
      simp only [VEHICLE_CROSS_TIME]
      push_cast
      linarith
    exact minGo_result_spec (fun i => (lanes i).state) _ _ hM
  · have hM : ∀ i : Fin 4, (lanes i).state = READY →
        ((lanes i).queue_length : ℚ) *
          (if 0 < get_lane_throughput (lanes i) then
            60 / (get_lane_throughput (lanes i) : ℚ)
          else (VEHICLE_CROSS_TIME : ℚ)) < FLT_MAX := by
      intro i _
      have h20 := queue_length_cast_le lanes hql i
      have h0 : (0 : ℚ) ≤ ((lanes i).queue_length : ℚ) := Nat.cast_nonneg _
      have hfac : (if 0 < get_lane_throughput (lanes i) then
          60 / (get_lane_throughput (lanes i) : ℚ)
        else (VEHICLE_CROSS_TIME : ℚ)) ≤ 60 ∧
          (0 : ℚ) ≤ (if 0 < get_lane_throughput (lanes i) then
            60 / (get_lane_throughput (lanes i) : ℚ)
          else (VEHICLE_CROSS_TIME : ℚ)) := by
        by_cases htp : 0 < get_lane_throughput (lanes i)
        · rw [if_pos htp]
          have h1 : (1 : ℚ) ≤ (get_lane_throughput (lanes i) : ℚ) := by
            exact_mod_cast htp
          exact ⟨div_le_self (by norm_num) h1,
            div_nonneg (by norm_num) (by linarith)⟩
        · rw [if_neg htp]
          simp only [VEHICLE_CROSS_TIME]
          norm_num
      have hmul : ((lanes i).queue_length : ℚ) *
          (if 0 < get_lane_throughput (lanes i) then
            60 / (get_lane_throughput (lanes i) : ℚ)
          else (VEHICLE_CROSS_TIME : ℚ)) ≤ 20 * 60 :=
        mul_le_mul h20 hfac.1 hfac.2 (by norm_num)
      have hbig : (20 : ℚ) * 60 < FLT_MAX := by unfold FLT_MAX; norm_num
      linarith
    exact minGo_result_spec (fun i => (lanes i).state) _ _ hM

/-- Witness for C3: a concrete snapshot (only lane 2 READY) satisfies the
bounds, hence all five policies obey the contract on it. -/
theorem C3_policies_ready_contract_witness :
    PolicyOk (fun l => schedule_next_lane_sjf l 100) c2Lanes ∧
    PolicyOk schedule_next_lane_srtf c2Lanes :=
  ⟨(C3_policies_ready_contract c2Lanes 100 (by decide) (by decide)).1,
    (C3_policies_ready_contract c2Lanes 100 (by decide) (by decide)).2.1⟩

/-! ## Frame lemmas for the mutual-exclusion invariant -/

lemma add_vehicle_state (lane : LaneProcess) (v now : ℤ) :
    (add_vehicle_to_lane lane v now).state = lane.state := by
  by_cases h : (enqueue lane.queue v).1
  · simp [add_vehicle_to_lane, h]
  · simp [add_vehicle_to_lane, h]

lemma remove_vehicle_state (lane : LaneProcess) :
    (remove_vehicle_from_lane lane).2.state = lane.state := rfl

lemma batch_remove_state (lane : LaneProcess) :
    ∀ n : ℕ, ((batch_remove lane n).1).state = lane.state := by
  intro n
  induction n generalizing lane with
  | zero => rfl
  | succ k ih =>
    show ((batch_remove lane (k + 1)).1).state = lane.state
    unfold batch_remove
    dsimp only
    split
    · rw [ih]
      rfl
    · rw [ih]
      rfl

lemma tick_arrival_state (lane : LaneProcess) (a : Option ℤ) (now : ℤ) :
    (tick_arrival lane a now).state = lane.state := by
  cases a with
  | none => rfl
  | some v => exact add_vehicle_state lane v now

lemma tick_state_update_running (lane : LaneProcess) :
    (tick_state_update lane).state = RUNNING → lane.state = RUNNING := by
  unfold tick_state_update
  split
  · intro h
    exact absurd h (by simp)
  · split
    · intro h
      exact absurd h (by simp)
    · exact id

lemma tick_batch_state (lane : LaneProcess) (now : ℤ) :
    (tick_batch lane now).state = lane.state := by
  unfold tick_batch
  split
  · dsimp only
    split
    · simp [batch_remove_state]
    · exact batch_remove_state lane _
  · rfl

lemma tick_wait_bump_state (lane : LaneProcess) :
    (tick_wait_bump lane).state = lane.state := by
  unfold tick_wait_bump
  split <;> rfl

lemma lane_process_tick_running (lane : LaneProcess) (a : Option ℤ) (now : ℤ) :
    (lane_process_tick lane a now).state = RUNNING → lane.state = RUNNING := by
  intro h
  rw [lane_process_tick, tick_wait_bump_state, tick_batch_state] at h
  rw [← tick_arrival_state lane a now]
  exact tick_state_update_running _ h

lemma context_switch_from_not_running (lane : LaneProcess) :
    (context_switch_from lane).state ≠ RUNNING := by
  unfold context_switch_from
  split
  · split <;> simp
  · rename_i h
    simpa using h

lemma context_switch_to_running (lane : LaneProcess) :
    (context_switch_to lane).state = RUNNING →
      lane.state = READY ∨ lane.state = RUNNING := by
  unfold context_switch_to
  split
  · rename_i h; exact fun _ => Or.inl h
  · exact fun h => Or.inr h

lemma reset_running_lane_not_running (lane : LaneProcess) :
    (reset_running_lane lane).state ≠ RUNNING := by
  unfold reset_running_lane
  split
  · split <;> simp
  · rename_i h
    simpa using h

lemma resolve_deadlock_victim_running (lane : LaneProcess) :
    (resolve_deadlock_victim lane).state = RUNNING → lane.state = RUNNING := by
  unfold resolve_deadlock_victim
  split
  · simp [release_intersection_quadrants]
  · exact id

lemma execute_lane_time_slice_running (scheduler : Scheduler) (lane : LaneProcess)
    (m : PerformanceMetrics) (t1 t2 t3 : ℤ) (g : Bool) :
    ((execute_lane_time_slice scheduler lane m t1 t2 t3 g).2.1).state = RUNNING →
      lane.state = RUNNING := by
  unfold execute_lane_time_slice
  dsimp only
  split
  · rename_i h
    intro hcontra
    simp at hcontra
  · intro h
    exact h

lemma record_execution_current (scheduler : Scheduler) (a b c d : ℤ) (g : Bool) :
    (record_execution scheduler a b c d g).current_lane = scheduler.current_lane := by
  unfold record_execution
  split
  · rfl
  · split <;> rfl

lemma decodeLane_coe : ∀ j : Fin 4, decodeLane (j : ℤ) = some j := by decide

lemma decodeLane_some {n : ℤ} {t : Fin 4} (h : decodeLane n = some t) : n = (t : ℤ) := by
  unfold decodeLane at h
  split at h
  · rename_i hcond
    injection h with h
    subst h
    simp
    omega
  · exact absurd h (by simp)

/-- When the target of `context_switch` is some other lane `j ≠ to_lane`,
a `RUNNING` result at `j` means `j` was already `RUNNING` and was not the
demoted previous lane. -/
lemma context_switch_running_elsewhere (lanes : Fin 4 → LaneProcess)
    (fr : Option (Fin 4)) (t j : Fin 4) (hjt : j ≠ t)
    (h : (context_switch lanes fr t j).state = RUNNING) :
    (lanes j).state = RUNNING ∧ fr ≠ some j := by
  cases fr with
  | none =>
    rw [context_switch, Function.update_noteq hjt] at h
    exact ⟨h, by simp⟩
  | some f =>
    rw [context_switch] at h
    rw [Function.update_noteq hjt] at h
    by_cases hjf : j = f
    · subst hjf
      rw [Function.update_same] at h
      exact absurd h (context_switch_from_not_running _)
    · rw [Function.update_noteq hjf] at h
      exact ⟨h, fun hc => hjf (Option.some.inj hc).symm⟩

lemma execute_lane_time_slice_current (scheduler : Scheduler) (lane : LaneProcess)
    (m : PerformanceMetrics) (t1 t2 t3 : ℤ) (g : Bool) :
    (execute_lane_time_slice scheduler lane m t1 t2 t3 g).1.current_lane =
      scheduler.current_lane :=
  record_execution_current _ _ _ _ _ _

/-- Policy switching re-establishes the invariant: after a successful
`set_scheduling_algorithm` during a running simulation no lane is left
`RUNNING` and `current_lane` is `-1`; a failed trylock changes nothing. -/
lemma set_scheduling_algorithm_inv (s : SysState) (alg : SchedulingAlgorithm)
    (g : Bool) (h : SchedInv s) :
    SchedInv { s with
      scheduler := (set_scheduling_algorithm s.scheduler s.lanes alg g
        s.simulation_running).1
      lanes := (set_scheduling_algorithm s.scheduler s.lanes alg g
        s.simulation_running).2 } := by
  obtain ⟨hsim, hrun⟩ := h
  cases g with
  | false => exact ⟨hsim, fun j hj => hrun j hj⟩
  | true =>
    have hl : (set_scheduling_algorithm s.scheduler s.lanes alg true
        s.simulation_running).2 = fun i => reset_running_lane (s.lanes i) := by
      rw [hsim]
      rfl
    refine ⟨hsim, fun j hj => ?_⟩
    have hj2 : ((set_scheduling_algorithm s.scheduler s.lanes alg true
        s.simulation_running).2 j).state = RUNNING := hj
    rw [hl] at hj2
    exact absurd hj2 (reset_running_lane_not_running _)

/-- Every event of the running simulation preserves the strengthened
invariant. -/
lemma step_preserves_SchedInv (s : SysState) (e : Event) (h : SchedInv s) :
    SchedInv (step s e) := by
  obtain ⟨hsim, hrun⟩ := h
  cases e with
  | tick i a now =>
    refine ⟨hsim, fun j hj => ?_⟩
    simp only [step] at hj ⊢
    by_cases hji : j = i
    · subst hji
      rw [Function.update_same] at hj
      exact hrun j (lane_process_tick_running _ _ _ hj)
    · rw [Function.update_noteq hji] at hj
      exact hrun j hj
  | generate i roll now =>
    refine ⟨hsim, fun j hj => ?_⟩
    simp only [step, vehicle_generator_iter] at hj ⊢
    by_cases hji : j = i
    · subst hji
      rw [Function.update_same] at hj
      split at hj
      · exact absurd hj (by simp)
      · rw [add_vehicle_state] at hj
        exact hrun j hj
    · rw [Function.update_noteq hji] at hj
      exact hrun j hj
  | schedule next got now =>
    simp only [step]
    unfold schedule_next_lane_core
    by_cases hcond : next ≠ s.scheduler.current_lane ∧ next ≠ -1
    · rw [if_pos hcond]
      cases hdec : decodeLane next with
      | none => exact ⟨hsim, fun j hj => hrun j hj⟩
      | some t =>
        refine ⟨hsim, fun j hj => ?_⟩
        by_cases hjt : j = t
        · subst hjt
          exact decodeLane_some hdec
        · have hj2 : (context_switch s.lanes (decodeLane s.scheduler.current_lane)
              t j).state = RUNNING := hj
          obtain ⟨hjr, hne⟩ := context_switch_running_elsewhere s.lanes _ t j hjt hj2
          exfalso
          have hc := hrun j hjr
          rw [hc, decodeLane_coe j] at hne
          exact hne rfl
    · rw [if_neg hcond]
      exact ⟨hsim, fun j hj => hrun j hj⟩
  | timeslice i t1 t2 t3 g =>
    refine ⟨hsim, fun j hj => ?_⟩
    simp only [step] at hj ⊢
    rw [execute_lane_time_slice_current]
    by_cases hji : j = i
    · subst hji
      rw [Function.update_same] at hj
      exact hrun j (execute_lane_time_slice_running _ _ _ _ _ _ _ hj)
    · rw [Function.update_noteq hji] at hj
      exact hrun j hj
  | input ch g =>
    simp only [step]
    unfold handle_user_input
    split_ifs <;>
      first
      | exact ⟨hsim, fun j hj => hrun j hj⟩
      | exact set_scheduling_algorithm_inv s _ g ⟨hsim, hrun⟩
  | emergencyTrigger lane =>
    exact ⟨hsim, fun j hj => hrun j hj⟩
  | resolveDeadlock victim =>
    refine ⟨hsim, fun j hj => ?_⟩
    simp only [step] at hj ⊢
    by_cases hjv : j = victim
    · subst hjv
      rw [Function.update_same] at hj
      exact hrun j (resolve_deadlock_victim_running _ hj)
    · rw [Function.update_noteq hjv] at hj
      exact hrun j hj

lemma foldl_step_inv (events : List Event) :
    ∀ s : SysState, SchedInv s → SchedInv (events.foldl step s) := by
  induction events with
  | nil => intro s h; exact h
  | cons e rest ih =>
    intro s h
    exact ih (step s e) (step_preserves_SchedInv s e h)

lemma startState_inv (algorithm : SchedulingAlgorithm) (t0 : ℤ) :
    SchedInv (startState algorithm t0) := by
  refine ⟨rfl, fun i hi => ?_⟩
  simp [startState, init_lane_process] at hi

lemma atMostOne_validate (s : SysState) (h : AtMostOneRunning s) :
    validate_single_lane_running s.lanes = true := by
  unfold validate_single_lane_running
  rw [decide_eq_true_iff]
  by_cases h0 : (s.lanes 0).state = RUNNING <;>
    by_cases h1 : (s.lanes 1).state = RUNNING <;>
    by_cases h2 : (s.lanes 2).state = RUNNING <;>
    by_cases h3 : (s.lanes 3).state = RUNNING <;>
    simp only [h0, h1, h2, h3, if_true, if_false, if_pos, if_neg, not_false_iff]
  all_goals try omega
  all_goals try simp
  all_goals first
  | exact absurd (h 0 1 h0 h1) (by decide)
  | exact absurd (h 0 2 h0 h2) (by decide)
  | exact absurd (h 0 3 h0 h3) (by decide)
  | exact absurd (h 1 2 h1 h2) (by decide)
  | exact absurd (h 1 3 h1 h3) (by decide)
  | exact absurd (h 2 3 h2 h3) (by decide)

/-- C1: in every reachable state of the system at most one lane is
`RUNNING` — over every trace of lane ticks, vehicle generation,
scheduling steps (and thus every context switch, for every possible
policy result), time slices, user input including policy switches, and
emergency triggers; the `validate_single_lane_running` check of `main.c`
therefore passes in every reachable state. -/
theorem C1_mutual_exclusion (s : SysState) (h : Reachable s) :
    AtMostOneRunning s ∧ validate_single_lane_running s.lanes = true := by
  obtain ⟨algorithm, t0, events, rfl⟩ := h
  have hinv := foldl_step_inv events (startState algorithm t0)
    (startState_inv algorithm t0)
  have hone : AtMostOneRunning (events.foldl step (startState algorithm t0)) := by
    intro i j hi hj
    exact finCast_inj i j ((hinv.2 i hi).symm.trans (hinv.2 j hj))
  exact ⟨hone, atMostOne_validate _ hone⟩

/-- A concrete five-event trace exercising generation, a context switch,
a time slice, an emergency trigger, and a policy switch. -/
def c1Trace : List Event :=
  [Event.generate 0 false 10, Event.schedule 0 true 11,
    Event.timeslice 0 11 12 13 true, Event.emergencyTrigger 2,
    Event.input 50 true]

/-- Witness for C1: the state reached by `c1Trace` from a started system
satisfies mutual exclusion. -/
theorem C1_mutual_exclusion_witness :
    AtMostOneRunning (c1Trace.foldl step (startState SchedulingAlgorithm.SJF 0)) ∧
      validate_single_lane_running
        ((c1Trace.foldl step (startState SchedulingAlgorithm.SJF 0)).lanes) = true :=
  C1_mutual_exclusion _ ⟨SchedulingAlgorithm.SJF, 0, c1Trace, rfl⟩

/-! ## The context-switch path of `schedule_next_lane` (C4, C5, C10) -/

lemma context_switch_apply_to (lanes : Fin 4 → LaneProcess) (fr : Option (Fin 4))
    (t : Fin 4) (hfr : fr ≠ some t) :
    context_switch lanes fr t t = context_switch_to (lanes t) := by
  cases fr with
  | none => rw [context_switch, Function.update_same]
  | some f =>
    have hft : t ≠ f := fun he => hfr (by rw [he])
    rw [context_switch, Function.update_same, Function.update_noteq hft]

lemma context_switch_apply_from (lanes : Fin 4 → LaneProcess) (f t : Fin 4)
    (hft : f ≠ t) :
    context_switch lanes (some f) t f = context_switch_from (lanes f) := by
  rw [context_switch, Function.update_noteq hft, Function.update_same]

lemma context_switch_from_state_running (lane : LaneProcess)
    (h : lane.state = RUNNING) :
    (context_switch_from lane).state =
      if 0 < lane.queue_length then READY else WAITING := by
  unfold context_switch_from
  rw [if_pos h]

lemma context_switch_to_ready (lane : LaneProcess) (h : lane.state = READY) :
    (context_switch_to lane).state = RUNNING ∧
      (context_switch_to lane).waiting_time = 0 := by
  unfold context_switch_to
  rw [if_pos h]
  exact ⟨rfl, rfl⟩

lemma context_switch_to_not_ready (lane : LaneProcess) (h : lane.state ≠ READY) :
    context_switch_to lane = lane := by
  unfold context_switch_to
  rw [if_neg h]

/-- Value of `schedule_next_lane_core` when a switch actually happens. -/
lemma schedule_next_lane_core_switch (scheduler : Scheduler)
    (lanes : Fin 4 → LaneProcess) (m : PerformanceMetrics) (t : Fin 4) (g : Bool)
    (now : ℤ) (hdiff : (t : ℤ) ≠ scheduler.current_lane) :
    schedule_next_lane_core scheduler lanes (t : ℤ) g m now =
      ({ scheduler with current_lane := (t : ℤ), last_schedule_time := now },
        context_switch lanes (decodeLane scheduler.current_lane) t,
        if g then update_context_switch_count m else m) := by
  unfold schedule_next_lane_core
  rw [if_pos ⟨hdiff, finCast_ne_neg_one t⟩, decodeLane_coe t]

/-- C4: when the policy selects a lane `t` different from `currentLane`,
the context switch demotes the previously RUNNING lane to READY if its
queue is non-empty and to WAITING if it is empty, promotes the selected
lane from READY to RUNNING with `waiting_time` reset to 0, and sets
`current_lane` to the selected index. -/
theorem C4_context_switch_effects (scheduler : Scheduler)
    (lanes : Fin 4 → LaneProcess) (m : PerformanceMetrics) (t : Fin 4) (g : Bool)
    (now : ℤ) (hdiff : (t : ℤ) ≠ scheduler.current_lane)
    (hready : (lanes t).state = READY) :
    (schedule_next_lane_core scheduler lanes (t : ℤ) g m now).1.current_lane =
      (t : ℤ) ∧
    ((schedule_next_lane_core scheduler lanes (t : ℤ) g m now).2.1 t).state =
      RUNNING ∧
    ((schedule_next_lane_core scheduler lanes (t : ℤ) g m now).2.1 t).waiting_time
      = 0 ∧
    (∀ f : Fin 4, scheduler.current_lane = (f : ℤ) → (lanes f).state = RUNNING →
      ((schedule_next_lane_core scheduler lanes (t : ℤ) g m now).2.1 f).state =
        if 0 < (lanes f).queue_length then READY else WAITING) := by
  rw [schedule_next_lane_core_switch scheduler lanes m t g now hdiff]
  have hfr : decodeLane scheduler.current_lane ≠ some t := by
    intro hc
    exact hdiff (decodeLane_some hc).symm
  have hto := context_switch_apply_to lanes (decodeLane scheduler.current_lane) t hfr
  refine ⟨rfl, ?_, ?_, ?_⟩
  · show (context_switch lanes (decodeLane scheduler.current_lane) t t).state = RUNNING
    rw [hto]
    exact (context_switch_to_ready (lanes t) hready).1
  · show (context_switch lanes (decodeLane scheduler.current_lane) t
      t).waiting_time = 0
    rw [hto]
    exact (context_switch_to_ready (lanes t) hready).2
  · intro f hf hrf
    have hft : f ≠ t := by
      intro he
      subst he
      exact hdiff (hf.symm)
    show (context_switch lanes (decodeLane scheduler.current_lane) t f).state = _
    rw [hf, decodeLane_coe f, context_switch_apply_from lanes f t hft]
    exact context_switch_from_state_running (lanes f) hrf

/-- Witness for C4: a concrete switch from RUNNING lane 0 to READY lane 1. -/
theorem C4_context_switch_effects_witness :
    (schedule_next_lane_core
        { init_scheduler SchedulingAlgorithm.SJF 0 with current_lane := 0 }
        c4Lanes ((1 : Fin 4) : ℤ) true c4Metrics0 5).1.current_lane =
      ((1 : Fin 4) : ℤ) ∧
    ((schedule_next_lane_core
        { init_scheduler SchedulingAlgorithm.SJF 0 with current_lane := 0 }
        c4Lanes ((1 : Fin 4) : ℤ) true c4Metrics0 5).2.1 1).state = RUNNING ∧
    ((schedule_next_lane_core
        { init_scheduler SchedulingAlgorithm.SJF 0 with current_lane := 0 }
        c4Lanes ((1 : Fin 4) : ℤ) true c4Metrics0 5).2.1 1).waiting_time = 0 ∧
    ((schedule_next_lane_core
        { init_scheduler SchedulingAlgorithm.SJF 0 with current_lane := 0 }
        c4Lanes ((1 : Fin 4) : ℤ) true c4Metrics0 5).2.1 0).state = READY := by
  have h := C4_context_switch_effects
    { init_scheduler SchedulingAlgorithm.SJF 0 with current_lane := 0 }
    c4Lanes c4Metrics0 1 true 5 (by decide) (by decide)
  refine ⟨h.1, h.2.1, h.2.2.1, ?_⟩
  have h0 := h.2.2.2 0 (by decide) (by decide)
  rw [h0]
  decide

/-- C10: when the context-switch target `t` is not READY, `context_switch`
leaves the target lane entirely unchanged (state and `waiting_time`
included), while `schedule_next_lane` still sets `current_lane := t` — so
`current_lane` may designate a lane that is not RUNNING. -/
theorem C10_non_ready_target (scheduler : Scheduler) (lanes : Fin 4 → LaneProcess)
    (m : PerformanceMetrics) (t : Fin 4) (g : Bool) (now : ℤ)
    (hdiff : (t : ℤ) ≠ scheduler.current_lane)
    (hnot : (lanes t).state ≠ READY) :
    (schedule_next_lane_core scheduler lanes (t : ℤ) g m now).2.1 t = lanes t ∧
    (schedule_next_lane_core scheduler lanes (t : ℤ) g m now).1.current_lane =
      (t : ℤ) ∧
    ((lanes t).state ≠ RUNNING →
      ((schedule_next_lane_core scheduler lanes (t : ℤ) g m now).2.1 t).state ≠
        RUNNING) := by
  rw [schedule_next_lane_core_switch scheduler lanes m t g now hdiff]
  have hfr : decodeLane scheduler.current_lane ≠ some t := by
    intro hc
    exact hdiff (decodeLane_some hc).symm
  have hto : context_switch lanes (decodeLane scheduler.current_lane) t t =
      lanes t := by
    rw [context_switch_apply_to lanes _ t hfr, context_switch_to_not_ready _ hnot]
  refine ⟨hto, rfl, fun hnr => ?_⟩
  show (context_switch lanes (decodeLane scheduler.current_lane) t t).state ≠ RUNNING
  rw [hto]
  exact hnr

/-- Witness for C10: switching to the WAITING lane 2 of the concrete
scenario leaves it WAITING while `current_lane` becomes 2. -/
theorem C10_non_ready_target_witness :
    (schedule_next_lane_core
        { init_scheduler SchedulingAlgorithm.SJF 0 with current_lane := 0 }
        c4Lanes ((2 : Fin 4) : ℤ) true c4Metrics0 5).2.1 2 = c4Lanes 2 ∧
    (schedule_next_lane_core
        { init_scheduler SchedulingAlgorithm.SJF 0 with current_lane := 0 }
        c4Lanes ((2 : Fin 4) : ℤ) true c4Metrics0 5).1.current_lane =
      ((2 : Fin 4) : ℤ) ∧
    ((schedule_next_lane_core
        { init_scheduler SchedulingAlgorithm.SJF 0 with current_lane := 0 }
        c4Lanes ((2 : Fin 4) : ℤ) true c4Metrics0 5).2.1 2).state ≠ RUNNING := by
  have h := C10_non_ready_target
    { init_scheduler SchedulingAlgorithm.SJF 0 with current_lane := 0 }
    c4Lanes c4Metrics0 2 true 5 (by decide) (by decide)
  exact ⟨h.1, h.2.1, h.2.2 (by decide)⟩

/-- C5 (code bug evaluation): on a concrete state the policy picks lane 1,
`schedule_next_lane` performs a genuine context switch (`current_lane`
moves to 1, lane 1 is promoted to RUNNING), yet the scheduler's
`total_context_switches` stays at its previous value 0 — the increment in
`context_switch` is commented out ("Moved to schedule_next_lane") and
`schedule_next_lane` never performs it; only the metrics-side counter
(spec-modelled `update_context_switch_count`) moves. -/
theorem C5_switch_counter_not_incremented :
    schedule_next_lane_sjf c4Lanes 5 = ((1 : Fin 4) : ℤ) ∧
    (schedule_next_lane_core (init_scheduler SchedulingAlgorithm.SJF 0) c4Lanes
      (schedule_next_lane_sjf c4Lanes 5) true c4Metrics0 5).1.current_lane = 1 ∧
    ((schedule_next_lane_core (init_scheduler SchedulingAlgorithm.SJF 0) c4Lanes
      (schedule_next_lane_sjf c4Lanes 5) true c4Metrics0 5).2.1 1).state =
      RUNNING ∧
    (schedule_next_lane_core (init_scheduler SchedulingAlgorithm.SJF 0) c4Lanes
      (schedule_next_lane_sjf c4Lanes 5) true c4Metrics0 5).1.total_context_switches
      = (init_scheduler SchedulingAlgorithm.SJF 0).total_context_switches ∧
    (init_scheduler SchedulingAlgorithm.SJF 0).total_context_switches = 0 ∧
    (schedule_next_lane_core (init_scheduler SchedulingAlgorithm.SJF 0) c4Lanes
      (schedule_next_lane_sjf c4Lanes 5) true c4Metrics0 5).2.2.context_switch_count
      = c4Metrics0.context_switch_count + 1 := by
  refine ⟨by decide, by decide, by decide, by decide, by decide, by decide⟩

lemma dequeue_items_length (q : Queue) :
    q.items.length ≤ (dequeue q).2.items.length + 1 := by
  rcases q with ⟨items, cap⟩
  cases items with
  | nil => simp [dequeue]
  | cons v rest => simp [dequeue]

/-- C7: `execute_lane_time_slice` dequeues at most the batch limit of
vehicles (in fact at most one per call), demotes the lane to WAITING only
when its queue is empty afterwards, and does not change the lane's state
when the queue is still non-empty. -/
theorem C7_time_slice (scheduler : Scheduler) (lane : LaneProcess)
    (m : PerformanceMetrics) (t1 t2 t3 : ℤ) (g : Bool) :
    lane.queue.items.length ≤
      ((execute_lane_time_slice scheduler lane m t1 t2 t3 g).2.1).queue.items.length
        + BATCH_EXIT_SIZE ∧
    (execute_lane_time_slice scheduler lane m t1 t2 t3 g).2.2.2 ≤
      (BATCH_EXIT_SIZE : ℤ) ∧
    (((execute_lane_time_slice scheduler lane m t1 t2 t3 g).2.1).state ≠ lane.state →
      ((execute_lane_time_slice scheduler lane m t1 t2 t3 g).2.1).state = WAITING ∧
      ((execute_lane_time_slice scheduler lane m t1 t2 t3 g).2.1).queue_length = 0 ∧
      lane.state = RUNNING) ∧
    (((execute_lane_time_slice scheduler lane m t1 t2 t3 g).2.1).queue_length ≠ 0 →
      ((execute_lane_time_slice scheduler lane m t1 t2 t3 g).2.1).state =
        lane.state) := by
  have hl : (execute_lane_time_slice scheduler lane m t1 t2 t3 g).2.1 =
      (if (remove_vehicle_from_lane_unlocked lane).2.queue_length = 0 ∧
          (remove_vehicle_from_lane_unlocked lane).2.state = RUNNING then
        { (remove_vehicle_from_lane_unlocked lane).2 with state := WAITING }
      else (remove_vehicle_from_lane_unlocked lane).2) := rfl
  have hp : (execute_lane_time_slice scheduler lane m t1 t2 t3 g).2.2.2 =
      (if (remove_vehicle_from_lane_unlocked lane).1 ≠ -1 then (1 : ℤ) else 0) := rfl
  refine ⟨?_, ?_, ?_, ?_⟩
  · rw [hl]
    have hd := dequeue_items_length lane.queue
    have hitems : ∀ l : LaneProcess,
        ({ l with state := WAITING } : LaneProcess).queue.items.length =
          l.queue.items.length := fun l => rfl
    by_cases hcond : (remove_vehicle_from_lane_unlocked lane).2.queue_length = 0 ∧
        (remove_vehicle_from_lane_unlocked lane).2.state = RUNNING
    · rw [if_pos hcond, hitems]
      show lane.queue.items.length ≤ (dequeue lane.queue).2.items.length +
        BATCH_EXIT_SIZE
      simp only [BATCH_EXIT_SIZE]
      omega
    · rw [if_neg hcond]
      show lane.queue.items.length ≤ (dequeue lane.queue).2.items.length +
        BATCH_EXIT_SIZE
      simp only [BATCH_EXIT_SIZE]
      omega
  · rw [hp]
    split <;> simp [BATCH_EXIT_SIZE]
  · rw [hl]
    by_cases hcond : (remove_vehicle_from_lane_unlocked lane).2.queue_length = 0 ∧
        (remove_vehicle_from_lane_unlocked lane).2.state = RUNNING
    · rw [if_pos hcond]
      intro _
      exact ⟨rfl, hcond.1, hcond.2⟩
    · rw [if_neg hcond]
      intro hne
      exact absurd rfl hne
  · rw [hl]
    by_cases hcond : (remove_vehicle_from_lane_unlocked lane).2.queue_length = 0 ∧
        (remove_vehicle_from_lane_unlocked lane).2.state = RUNNING
    · rw [if_pos hcond]
      intro hne
      exact absurd hcond.1 hne
    · rw [if_neg hcond]
      intro _
      rfl

/-- Witness for C7: a RUNNING lane with two queued vehicles keeps state
RUNNING after the slice (queue still non-empty) and loses at most the
batch limit. -/
theorem C7_time_slice_witness :
    (mkLane 0 RUNNING [1, 2] 20 0).queue.items.length ≤
      ((execute_lane_time_slice (init_scheduler SchedulingAlgorithm.SJF 0)
          (mkLane 0 RUNNING [1, 2] 20 0) c4Metrics0 0 1 2 true).2.1).queue.items.length
        + BATCH_EXIT_SIZE ∧
    ((execute_lane_time_slice (init_scheduler SchedulingAlgorithm.SJF 0)
        (mkLane 0 RUNNING [1, 2] 20 0) c4Metrics0 0 1 2 true).2.1).state =
      (mkLane 0 RUNNING [1, 2] 20 0).state := by
  have h := C7_time_slice (init_scheduler SchedulingAlgorithm.SJF 0)
    (mkLane 0 RUNNING [1, 2] 20 0) c4Metrics0 0 1 2 true
  exact ⟨h.1, h.2.2.2 (by decide)⟩

/-- C9: `releaseQuadrants` always succeeds — after the call the lane's
allocated and requested quadrants are both zero and the released amount is
returned to the available pool (`available = 4 − Σ allocation`). -/
theorem C9_release_quadrants (lanes : Fin 4 → LaneProcess) (i : Fin 4) :
    ((Function.update lanes i (release_intersection_quadrants (lanes i)))
      i).allocated_quadrants = 0 ∧
    ((Function.update lanes i (release_intersection_quadrants (lanes i)))
      i).requested_quadrants = 0 ∧
    available_quadrants (Function.update lanes i
        (release_intersection_quadrants (lanes i))) =
      available_quadrants lanes + ((lanes i).allocated_quadrants : ℤ) := by
  refine ⟨by rw [Function.update_same]; rfl, by rw [Function.update_same]; rfl, ?_⟩
  fin_cases i <;>
    simp [available_quadrants, release_intersection_quadrants, Function.update] <;>
    omega

/-- Witness for C9 at a concrete allocation. -/
theorem C9_release_quadrants_witness :
    ((Function.update c9Lanes 1 (release_intersection_quadrants (c9Lanes 1)))
      1).allocated_quadrants = 0 ∧
    ((Function.update c9Lanes 1 (release_intersection_quadrants (c9Lanes 1)))
      1).requested_quadrants = 0 ∧
    available_quadrants (Function.update c9Lanes 1
        (release_intersection_quadrants (c9Lanes 1))) =
      available_quadrants c9Lanes + ((c9Lanes 1).allocated_quadrants : ℤ) :=
  C9_release_quadrants c9Lanes 1

/-! ## Enqueue behaviour (C6) and the emergency key (C8) -/

/-- A WAITING lane with an empty queue, well below capacity. -/
def c6Lane : LaneProcess := mkLane 0 WAITING [] 20 0

/-- C6 counterexample: on a WAITING lane below capacity,
`add_vehicle_to_lane` appends the vehicle and updates the cached length,
but leaves the state WAITING — it does not promote the lane to READY as
the claim asserts. -/
theorem C6_counterexample :
    c6Lane.state = WAITING ∧
    c6Lane.queue_length < c6Lane.max_queue_length ∧
    (add_vehicle_to_lane c6Lane 42 100).queue_length = 1 ∧
    (add_vehicle_to_lane c6Lane 42 100).last_arrival_time = 100 ∧
    (add_vehicle_to_lane c6Lane 42 100).state = WAITING ∧
    (add_vehicle_to_lane c6Lane 42 100).state ≠ READY := by
  refine ⟨rfl, by decide, by decide, by decide, by decide, by decide⟩

/-- C6 (amended): `add_vehicle_to_lane` at capacity fails and leaves the
lane unchanged; below capacity it appends the vehicle, refreshes the
cached length to the queue's size, and stamps `last_arrival_time` — but it
never changes the lane's state.  The WAITING→READY promotion is performed
by the caller (the vehicle generator's wake-up section) right after the
enqueue, not by `add_vehicle_to_lane` itself. -/
theorem C6_enqueue_amended :
    (∀ (lane : LaneProcess) (v now : ℤ),
      lane.queue_length = lane.queue.items.length →
      lane.queue.capacity = lane.max_queue_length →
      (lane.queue_length < lane.max_queue_length →
        add_vehicle_to_lane lane v now =
          { lane with
              queue := ⟨lane.queue.items ++ [v], lane.queue.capacity⟩
              queue_length := lane.queue.items.length + 1
              last_arrival_time := now }) ∧
      (¬lane.queue_length < lane.max_queue_length →
        add_vehicle_to_lane lane v now = lane)) ∧
    (∀ (s : SysState) (idx : Fin 4) (roll : Bool) (now : ℤ),
      (s.lanes idx).state = WAITING →
      ((vehicle_generator_iter s idx roll now).lanes idx).state = READY) := by
  constructor
  · intro lane v now hcons hcap
    constructor
    · intro hlt
      have h : lane.queue.items.length < lane.queue.capacity := by omega
      unfold add_vehicle_to_lane enqueue
      rw [if_pos h]
      simp [get_size]
    · intro hge
      have h : ¬lane.queue.items.length < lane.queue.capacity := by omega
      unfold add_vehicle_to_lane enqueue
      rw [if_neg h]
      rfl
  · intro s idx roll now hw
    show ((Function.update s.lanes idx _) idx).state = READY
    rw [Function.update_same]
    have h1 : (add_vehicle_to_lane (s.lanes idx) s.total_vehicles_generated
        now).state = WAITING := by
      rw [add_vehicle_state]
      exact hw
    simp only [h1, if_pos rfl]
    rw [if_pos trivial]

/-- Witness for C6 (amended) at the concrete WAITING lane, both for the
below-capacity enqueue and for the caller-side promotion. -/
theorem C6_enqueue_amended_witness :
    add_vehicle_to_lane c6Lane 42 100 =
      { c6Lane with
          queue := { items := [42], capacity := 20 }
          queue_length := 1
          last_arrival_time := 100 } ∧
    ((vehicle_generator_iter { startState SchedulingAlgorithm.SJF 0 with
        lanes := fun _ => c6Lane } 0 false 100).lanes 0).state = READY :=
  ⟨(C6_enqueue_amended.1 c6Lane 42 100 rfl rfl).1 (by decide),
    C6_enqueue_amended.2 { startState SchedulingAlgorithm.SJF 0 with
      lanes := fun _ => c6Lane } 0 false 100 rfl⟩

/-- Concrete started system with lane 1 RUNNING and the help screen off. -/
def c8State : SysState :=
  { startState SchedulingAlgorithm.SJF 0 with
      lanes := fun i =>
        if i = 1 then mkLane 1 RUNNING [9] 20 0
        else init_lane_process (i : ℤ) MAX_QUEUE_CAPACITY 0
      scheduler := { init_scheduler SchedulingAlgorithm.SJF 0 with
        current_lane := 1, scheduler_running := true } }

/-- C8 (code bug evaluation): pressing the emergency key `e` (101) or `E`
(69) leaves the entire system state unchanged — the
`trigger_emergency_vehicle` call in `handle_user_input` is commented out
("to fix build error") — and the scheduling step never consults the
emergency-pending flag: its result is identical for both values of the
flag. -/
theorem C8_emergency_key_no_op :
    handle_user_input c8State 101 true = c8State ∧
    handle_user_input c8State 69 true = c8State ∧
    (c8State.lanes 1).state = RUNNING ∧
    (∀ (b : Bool) (next : ℤ) (g : Bool) (now : ℤ),
      (step { c8State with emergency_pending := b }
          (Event.schedule next g now)).lanes =
        (step c8State (Event.schedule next g now)).lanes ∧
      (step { c8State with emergency_pending := b }
          (Event.schedule next g now)).scheduler =
        (step c8State (Event.schedule next g now)).scheduler) := by
  refine ⟨rfl, rfl, by decide, fun b next g now => ⟨rfl, rfl⟩⟩

end Traffic
